import Mathlib

/-!
Verification development for the revenium-middleware-anthropic-python
repository.  The Python sources under `revenium_middleware_anthropic/`
(`middleware.py`, `bedrock_adapter.py`, `provider.py`) are shallowly
embedded below: Python dictionaries become association lists, Python
values become the inductive `PyVal`, fallible Python functions return
`Except`, and the asynchronous metering dispatch becomes an explicit
outcome value parameterised by the shutdown flag observed at each of
its two check points.
-/

namespace Revenium

/-- A Python dictionary key: either a string or some other hashable
object, modelled by its `str()` rendering. -/
inductive PyKey where
  | str (s : String)
  | other (r : String)
deriving DecidableEq

/-- A Python value, covering the shapes that flow through the
middleware: `None`, booleans, integers, floats (binary64 values are
exact rationals, so a rational carries them faithfully), strings,
lists, tuples, dictionaries, and other objects modelled by their
`str()` rendering. -/
inductive PyVal where
  | none
  | bool (b : Bool)
  | int (n : Int)
  | float (q : ℚ)
  | str (s : String)
  | list (xs : List PyVal)
  | tuple (xs : List PyVal)
  | dict (es : List (PyKey × PyVal))
  | obj (r : String)

/-- Python truthiness (`if value:`). -/
def pyTruthy : PyVal → Bool
  | PyVal.none => false
  | PyVal.bool b => b
  | PyVal.int n => n != 0
  | PyVal.float q => q != 0
  | PyVal.str s => s != ""
  | PyVal.list xs => !xs.isEmpty
  | PyVal.tuple xs => !xs.isEmpty
  | PyVal.dict es => !es.isEmpty
  | PyVal.obj _ => true

/-- `str()` of a dictionary key (`key = str(key)` in the sanitizer). -/
def keyStr : PyKey → String
  | PyKey.str s => s
  | PyKey.other r => r

def pyReprKey : PyKey → String
  | PyKey.str s => "\x27" ++ s ++ "\x27"
  | PyKey.other r => r

mutual

/-- Python `repr()` (used for elements inside containers).  String
escaping and float rendering are simplified; no claim depends on the
exact rendered characters, only on values being stringified. -/
def pyRepr : PyVal → String
  | PyVal.none => "None"
  | PyVal.bool b => if b then "True" else "False"
  | PyVal.int n => toString n
  | PyVal.float q => toString q.num ++ "/" ++ toString q.den
  | PyVal.str s => "\x27" ++ s ++ "\x27"
  | PyVal.list xs => "[" ++ pyReprList xs ++ "]"
  | PyVal.tuple xs => "(" ++ pyReprList xs ++ ")"
  | PyVal.dict es => "\x7b" ++ pyReprEntries es ++ "\x7d"
  | PyVal.obj r => r

def pyReprList : List PyVal → String
  | [] => ""
  | [x] => pyRepr x
  | x :: y :: xs => pyRepr x ++ ", " ++ pyReprList (y :: xs)

def pyReprEntries : List (PyKey × PyVal) → String
  | [] => ""
  | [(k, v)] => pyReprKey k ++ ": " ++ pyRepr v
  | (k, v) :: e :: es => pyReprKey k ++ ": " ++ pyRepr v ++ ", " ++ pyReprEntries (e :: es)

end

/-- Python `str()`: identity on strings, `repr`-based elsewhere. -/
def pyStr : PyVal → String
  | PyVal.str s => s
  | v => pyRepr v

/-- Keyword arguments (`**kwargs`): a Python string-keyed dict. -/
abbrev Kwargs := List (String × PyVal)

/-- `kwargs.get(key, default)`. -/
def kwGet (kwargs : Kwargs) (key : String) (default : PyVal) : PyVal :=
  match kwargs.lookup key with
  | some v => v
  | Option.none => default

/-- `kwargs.get(key)` (default `None`). -/
def kwGetOpt (kwargs : Kwargs) (key : String) : PyVal :=
  kwGet kwargs key PyVal.none

/-- `kwargs.pop(key, default)`: the popped value together with the
dictionary with that key removed. -/
def kwPop (kwargs : Kwargs) (key : String) (default : PyVal) :
    PyVal × Kwargs :=
  (kwGet kwargs key default, kwargs.filter (fun kv => kv.1 != key))

/-- Membership test for a string key in a Python dict (`"role" in message`). -/
def dictHasKey (es : List (PyKey × PyVal)) (key : String) : Bool :=
  es.any (fun kv => kv.1 == PyKey.str key)

/-- `d.get(key, default)` on a Python dict with arbitrary keys. -/
def dictGet (es : List (PyKey × PyVal)) (key : String) (default : PyVal) : PyVal :=
  match es.lookup (PyKey.str key) with
  | some v => v
  | Option.none => default

/-- `data.get(key, default)` where `data` may not even be a dict
(the stream decoder only ever applies it to decoded JSON objects). -/
def pyGet (v : PyVal) (key : String) (default : PyVal) : PyVal :=
  match v with
  | PyVal.dict es => dictGet es key default
  | _ => default

/-! ## provider.py -/

/-- `Provider` enum from `provider.py`. -/
inductive Provider where
  | ANTHROPIC
  | BEDROCK
deriving DecidableEq

/-- The `client.meta` attribute of a boto3-style client:
`service_name` is `some` only when the attribute chain
`meta.service_model.service_name` exists (a missing link raises
`AttributeError`, which `detect_provider` swallows). -/
structure ClientMeta where
  service_name : Option String

/-- The client object passed to `detect_provider`: both attributes are
optional, modelling `hasattr` failure / absent attributes. -/
structure Client where
  meta : Option ClientMeta
  base_url : Option PyVal

/-- Character-list version of `needle.isPrefixOf hay`. -/
def listStartsWith : List Char → List Char → Bool
  | [], _ => true
  | _ :: _, [] => false
  | a :: as, b :: bs => a == b && listStartsWith as bs

/-- `needle in hay` on character lists (Python substring containment). -/
def listContainsSeq (needle hay : List Char) : Bool :=
  if listStartsWith needle hay then true
  else
    match hay with
    | [] => false
    | _ :: t => listContainsSeq needle t

/-- Python `needle in hay` for strings. -/
def strContains (hay needle : String) : Bool :=
  listContainsSeq needle.data hay.data

/-- Python `s.lower()` (ASCII case folding suffices for the URLs the
detector inspects). -/
def strToLower (s : String) : String :=
  String.mk (s.data.map Char.toLower)

/-- `"amazonaws.com" in str(url).lower()` guarded by Python truthiness
of `url`, exactly the condition used twice in `detect_provider`. -/
def urlIsBedrock (url : Option PyVal) : Bool :=
  match url with
  | some v => pyTruthy v && strContains (strToLower (pyStr v)) "amazonaws.com"
  | Option.none => false

/-- The attribute chain `client.meta.service_model.service_name`
probed by `detect_provider`, with `Option.none` wherever an attribute
is missing (the source swallows the resulting `AttributeError`). -/
def clientServiceName : Option Client → Option String
  | some c =>
    match c.meta with
    | some m => m.service_name
    | Option.none => Option.none
  | Option.none => Option.none

/-- `client.base_url` when the client exists and has the attribute. -/
def clientBaseUrl : Option Client → Option PyVal
  | some c => c.base_url
  | Option.none => Option.none

/-- `detect_provider` from `provider.py`: (1) boto3 client whose
`meta.service_model.service_name` equals `"bedrock-runtime"`;
(2) the `base_url` argument containing `"amazonaws.com"`
case-insensitively; (3) the client's own `base_url` likewise;
(4) default `ANTHROPIC`.  Total by construction — missing or
malformed attributes are `Option.none` and yield no signal, matching
the `hasattr`/`except AttributeError` guards in the source. -/
def detect_provider (client : Option Client) (base_url : Option PyVal) :
    Provider :=
  if clientServiceName client == some "bedrock-runtime" then Provider.BEDROCK
  else if urlIsBedrock base_url then Provider.BEDROCK
  else if urlIsBedrock (clientBaseUrl client) then Provider.BEDROCK
  else Provider.ANTHROPIC

/-- Provider metadata pair from `get_provider_metadata`. -/
structure ProviderMetadata where
  provider : String
  model_source : String
deriving DecidableEq

/-- `get_provider_metadata` from `provider.py`. -/
def get_provider_metadata : Provider → ProviderMetadata
  | Provider.BEDROCK => { provider := "AWS", model_source := "ANTHROPIC" }
  | Provider.ANTHROPIC => { provider := "ANTHROPIC", model_source := "ANTHROPIC" }

/-! ## bedrock_adapter.py -/

/-- The exception taxonomy of `bedrock_adapter.py` plus the two other
exception classes distinguished by the interception layer
(`ImportError` for the missing optional dependency, and a catch-all
for anything else). -/
inductive BedrockErr where
  | validationError (msg : String)
  | invokeError (msg : String)
  | streamError (msg : String)
  | importError (msg : String)
  | otherError (msg : String)
deriving DecidableEq

/-- Numeric value of a `List Char` of decimal digits. -/
def digitsNat (cs : List Char) : Nat :=
  cs.foldl (fun acc c => acc * 10 + (c.toNat - 48)) 0

/-- After a leading digit, Python `int()` accepts further digits with
single underscores allowed only between digits. -/
def pyDigitsAux : List Char → List Char → Option (List Char)
  | [], acc => some acc.reverse
  | c :: rest, acc =>
    if c.isDigit then pyDigitsAux rest (c :: acc)
    else if c == '_' then
      match rest with
      | d :: rest2 =>
        if d.isDigit then pyDigitsAux rest2 (d :: acc) else Option.none
      | [] => Option.none
    else Option.none

/-- Parse a nonempty run of digits (with embedded underscores). -/
def pyParseDigits : List Char → Option (List Char)
  | c :: rest => if c.isDigit then pyDigitsAux rest [c] else Option.none
  | [] => Option.none

/-- Python `int(s)` for a string: optional surrounding whitespace, an
optional sign, then digits; `none` models the `ValueError` raised on
anything else. -/
def pyIntOfString (s : String) : Option Int :=
  let cs := s.data.dropWhile Char.isWhitespace
  let cs := (cs.reverse.dropWhile Char.isWhitespace).reverse
  match cs with
  | '-' :: rest => (pyParseDigits rest).map (fun ds => -(Int.ofNat (digitsNat ds)))
  | '+' :: rest => (pyParseDigits rest).map (fun ds => Int.ofNat (digitsNat ds))
  | _ => (pyParseDigits cs).map (fun ds => Int.ofNat (digitsNat ds))

/-- Python `int(f)` for a float: truncation toward zero.  A binary64
float is an exact rational, and `Int.tdiv` truncates toward zero. -/
def pyIntOfFloat (q : ℚ) : Int :=
  Int.tdiv q.num (Int.ofNat q.den)

/-- The integer value of a Python `int` (a `bool` is an `int` whose
value is 0 or 1), used by the `<=`/`>` comparisons in the source. -/
def pyIntValue : PyVal → Int
  | PyVal.int n => n
  | PyVal.bool b => if b then 1 else 0
  | _ => 0

/-- `isinstance(v, (int, float))` together with the numeric value used
by range comparisons. -/
def pyNumQ : PyVal → Option ℚ
  | PyVal.int n => some (n : ℚ)
  | PyVal.bool b => some (if b then 1 else 0)
  | PyVal.float q => some q
  | _ => Option.none

/-- `_validate_messages` from `bedrock_adapter.py`, elementwise part:
each message must be a dict carrying both a `role` and a `content`
field. -/
def validateMessageList : List PyVal → Except BedrockErr (List (List (PyKey × PyVal)))
  | [] => Except.ok []
  | m :: rest =>
    match m with
    | PyVal.dict es =>
      if !dictHasKey es "role" then
        Except.error (BedrockErr.validationError "message missing required role field")
      else if !dictHasKey es "content" then
        Except.error (BedrockErr.validationError "message missing required content field")
      else (validateMessageList rest).map (fun tail => es :: tail)
    | _ => Except.error (BedrockErr.validationError "message must be a dict")

/-- `_validate_messages` from `bedrock_adapter.py`. -/
def _validate_messages (messages : PyVal) :
    Except BedrockErr (List (List (PyKey × PyVal))) :=
  match messages with
  | PyVal.list msgs =>
    if msgs.isEmpty then Except.error (BedrockErr.validationError "messages cannot be empty")
    else validateMessageList msgs
  | _ => Except.error (BedrockErr.validationError "messages must be a list")

/-- `_validate_max_tokens` from `bedrock_adapter.py`: a Python `int`
(including `bool`) passes through; any other value goes through
`int()` conversion (strings parsed, floats truncated toward zero),
with failure raising `BedrockValidationError`; then the value must be
positive and at most 200000. -/
def _validate_max_tokens (max_tokens : PyVal) : Except BedrockErr PyVal :=
  let conv : Except BedrockErr PyVal :=
    match max_tokens with
    | PyVal.int _ => Except.ok max_tokens
    | PyVal.bool _ => Except.ok max_tokens
    | PyVal.float q => Except.ok (PyVal.int (pyIntOfFloat q))
    | PyVal.str s =>
      match pyIntOfString s with
      | some n => Except.ok (PyVal.int n)
      | Option.none =>
        Except.error (BedrockErr.validationError "max_tokens must be an integer")
    | _ => Except.error (BedrockErr.validationError "max_tokens must be an integer")
  match conv with
  | Except.error e => Except.error e
  | Except.ok v =>
    if pyIntValue v ≤ 0 then
      Except.error (BedrockErr.validationError "max_tokens must be positive")
    else if pyIntValue v > 200000 then
      Except.error (BedrockErr.validationError "max_tokens too large")
    else Except.ok v

/-- The `temperature`/`top_p` checks inlined in `create_bedrock_payload`:
skipped when the value is `None`; otherwise it must be an `int` or
`float` within `[0, 1]`. -/
def _validate_unit_interval (v : PyVal) (msg : String) : Except BedrockErr Unit :=
  match v with
  | PyVal.none => Except.ok ()
  | _ =>
    match pyNumQ v with
    | some q =>
      if 0 ≤ q ∧ q ≤ 1 then Except.ok ()
      else Except.error (BedrockErr.validationError msg)
    | Option.none => Except.error (BedrockErr.validationError msg)

/-- The `top_k` check inlined in `create_bedrock_payload`: skipped when
`None`; otherwise a positive Python `int` (`True`, being 1, passes). -/
def _validate_top_k (v : PyVal) : Except BedrockErr Unit :=
  match v with
  | PyVal.none => Except.ok ()
  | PyVal.int n =>
    if n ≤ 0 then Except.error (BedrockErr.validationError "top_k must be a positive integer")
    else Except.ok ()
  | PyVal.bool b =>
    if b then Except.ok ()
    else Except.error (BedrockErr.validationError "top_k must be a positive integer")
  | _ => Except.error (BedrockErr.validationError "top_k must be a positive integer")

/-- The `system` handling in `create_bedrock_payload`: a falsy value is
not added to the payload; a truthy non-string raises. -/
def _validate_system (v : PyVal) : Except BedrockErr (Option PyVal) :=
  if pyTruthy v then
    match v with
    | PyVal.str _ => Except.ok (some v)
    | _ => Except.error (BedrockErr.validationError "system must be a string")
  else Except.ok Option.none

/-- The `stop_sequences` handling in `create_bedrock_payload`. -/
def _validate_stop_sequences (v : PyVal) : Except BedrockErr (Option PyVal) :=
  if pyTruthy v then
    match v with
    | PyVal.list _ => Except.ok (some v)
    | _ => Except.error (BedrockErr.validationError "stop_sequences must be a list")
  else Except.ok Option.none

/-- `None`-absence of an optional payload entry
(`if temperature is not None: payload["temperature"] = temperature`). -/
def optIfNotNone (v : PyVal) : Option PyVal :=
  match v with
  | PyVal.none => Option.none
  | _ => some v

/-- The Bedrock request envelope assembled by `create_bedrock_payload`;
`Option.none` fields are keys absent from the payload dict. -/
structure BedrockPayload where
  anthropic_version : PyVal
  messages : List (List (PyKey × PyVal))
  max_tokens : PyVal
  system : Option PyVal
  temperature : Option PyVal
  top_p : Option PyVal
  top_k : Option PyVal
  stop_sequences : Option PyVal

/-- `create_bedrock_payload` from `bedrock_adapter.py`: pure — performs
no network call; every failure is a `BedrockValidationError` raised
before any transport is touched. -/
def create_bedrock_payload (messages : PyVal) (kwargs : Kwargs) :
    Except BedrockErr BedrockPayload := do
  let validated_messages ← _validate_messages messages
  let max_tokens ← _validate_max_tokens (kwGet kwargs "max_tokens" (PyVal.int 1000))
  let temperature := kwGetOpt kwargs "temperature"
  let _ ← _validate_unit_interval temperature
    "temperature must be a number between 0.0 and 1.0"
  let top_p := kwGetOpt kwargs "top_p"
  let _ ← _validate_unit_interval top_p "top_p must be a number between 0.0 and 1.0"
  let top_k := kwGetOpt kwargs "top_k"
  let _ ← _validate_top_k top_k
  let system ← _validate_system (kwGetOpt kwargs "system")
  let stop_sequences ← _validate_stop_sequences (kwGetOpt kwargs "stop_sequences")
  Except.ok {
    anthropic_version := kwGet kwargs "anthropic_version" (PyVal.str "bedrock-2023-05-31"),
    messages := validated_messages,
    max_tokens := max_tokens,
    system := system,
    temperature := optIfNotNone temperature,
    top_p := optIfNotNone top_p,
    top_k := optIfNotNone top_k,
    stop_sequences := stop_sequences }

/-! ### Streaming decoder (`BedrockStreamIterator._process_stream`) -/

/-- Mutable state of `BedrockStreamIterator` touched by the decoder.
Token counts are the raw JSON values (Python keeps whatever
`usage.get(...)` returned). -/
structure StreamState where
  accumulated_text : String
  input_tokens : PyVal
  output_tokens : PyVal

/-- `BedrockStreamIterator.__init__` state. -/
def StreamState.init : StreamState :=
  { accumulated_text := "", input_tokens := PyVal.int 0, output_tokens := PyVal.int 0 }

/-- One raw event from the Bedrock response stream, after the
`event.get("chunk")` / `chunk.get("bytes")` / `json.loads` pipeline:
the first three constructors are the skipped shapes, the last is a
successfully decoded JSON chunk. -/
inductive StreamEvent where
  | noChunk
  | noBytes
  | malformed (raw : String)
  | chunk (data : PyVal)

/-- Python short-circuit `or`: first truthy operand, else the last. -/
def pyOr (a b : PyVal) : PyVal :=
  if pyTruthy a then a else b

/-- The body of the `try` block in `_process_stream` for one decoded
chunk: `content_block_delta` appends and yields its nonempty text,
`message_stop` captures the final token counts (probing camelCase,
snake_case, then the invocation-metrics spellings), all other types
are ignored. -/
def _process_chunk (s : StreamState) (chunk_data : PyVal) :
    StreamState × List String :=
  match pyGet chunk_data "type" PyVal.none with
  | PyVal.str ct =>
    if ct == "content_block_delta" then
      let delta := pyGet chunk_data "delta" (PyVal.dict [])
      match pyGet delta "text" (PyVal.str "") with
      | PyVal.str t =>
        if t != "" then
          ({ s with accumulated_text := s.accumulated_text ++ t }, [t])
        else (s, [])
      | _ => (s, [])
    else if ct == "message_stop" then
      let usage := pyGet chunk_data "usage" (PyVal.dict [])
      let metrics := pyGet chunk_data "amazon-bedrock-invocationMetrics" (PyVal.dict [])
      ({ s with
          input_tokens :=
            pyOr (pyOr (pyGet usage "inputTokens" (PyVal.int 0))
                (pyGet usage "input_tokens" (PyVal.int 0)))
              (pyGet metrics "inputTokenCount" (PyVal.int 0)),
          output_tokens :=
            pyOr (pyOr (pyGet usage "outputTokens" (PyVal.int 0))
                (pyGet usage "output_tokens" (PyVal.int 0)))
              (pyGet metrics "outputTokenCount" (PyVal.int 0)) }, [])
    else (s, [])
  | _ => (s, [])

/-- `_process_stream` over a whole event sequence: returns the final
iterator state and the list of yielded text fragments, in order.
Events without a chunk or bytes, and chunks that fail to decode as
JSON, are logged and skipped (`continue`), never fatal. -/
def _process_stream (events : List StreamEvent) (s : StreamState) :
    StreamState × List String :=
  match events with
  | [] => (s, [])
  | e :: rest =>
    match e with
    | StreamEvent.noChunk => _process_stream rest s
    | StreamEvent.noBytes => _process_stream rest s
    | StreamEvent.malformed _ => _process_stream rest s
    | StreamEvent.chunk data =>
      let (s1, ys) := _process_chunk s data
      let (s2, zs) := _process_stream rest s1
      (s2, ys ++ zs)

/-! ### Response objects and stream wrapper -/

/-- A content block of the Anthropic-compatible response. -/
structure ContentBlock where
  type : String
  text : String
deriving DecidableEq

/-- The `Usage` object of an Anthropic-style message. -/
structure Usage where
  input_tokens : Int
  output_tokens : Int
  total_tokens : Int
  cache_creation_input_tokens : Int
  cache_read_input_tokens : Int
deriving DecidableEq

/-- An Anthropic-style `Message` response object (the shape consumed by
the middleware: id, model, content, usage and stop reason). -/
structure Message where
  id : String
  type : String
  role : String
  model : String
  content : List ContentBlock
  usage : Usage
  stop_reason : Option String
  stop_sequence : Option String
deriving DecidableEq

/-- `_validate_model_name` from `bedrock_adapter.py`. -/
def _validate_model_name (model : PyVal) : Except BedrockErr String :=
  match model with
  | PyVal.str s =>
    if s.trim == "" then Except.error (BedrockErr.validationError "model cannot be empty")
    else Except.ok s.trim
  | _ => Except.error (BedrockErr.validationError "model must be a string")

/-- `create_anthropic_response` from `bedrock_adapter.py`.  The
nondeterministic `_generate_safe_id` (uuid + content hash) is
abstracted as the `genId` argument; `request_id or _generate_safe_id(...)`
is Python truthiness, so an empty id is regenerated.  Token counts must
be non-negative Python ints (a `bool` is an `int`). -/
def create_anthropic_response (text : String) (input_tokens output_tokens : PyVal)
    (model : PyVal) (request_id : Option String) (genId : String → String) :
    Except BedrockErr Message := do
  let inTok : Int ←
    match input_tokens with
    | PyVal.int n =>
      if n < 0 then
        Except.error (BedrockErr.validationError "input_tokens must be a non-negative integer")
      else Except.ok n
    | PyVal.bool b => Except.ok (if b then (1 : Int) else 0)
    | _ => Except.error (BedrockErr.validationError "input_tokens must be a non-negative integer")
  let outTok : Int ←
    match output_tokens with
    | PyVal.int n =>
      if n < 0 then
        Except.error (BedrockErr.validationError "output_tokens must be a non-negative integer")
      else Except.ok n
    | PyVal.bool b => Except.ok (if b then (1 : Int) else 0)
    | _ => Except.error (BedrockErr.validationError "output_tokens must be a non-negative integer")
  let modelName ← _validate_model_name model
  Except.ok {
    id :=
      (match request_id with
       | some rid => if rid != "" then rid else genId text
       | Option.none => genId text),
    type := "message",
    role := "assistant",
    model := modelName,
    content := [{ type := "text", text := text }],
    usage := {
      input_tokens := inTok,
      output_tokens := outTok,
      total_tokens := inTok + outTok,
      cache_creation_input_tokens := 0,
      cache_read_input_tokens := 0 },
    stop_reason := some "end_turn",
    stop_sequence := Option.none }

/-- The fields of `BedrockStreamWrapper` relevant to finalization.
Timing fields and the metering side channel are handled by the
middleware model below. -/
structure BedrockStreamWrapper where
  model : PyVal
  payload : BedrockPayload
  region : Option PyVal
  usage_metadata : Kwargs
  stream_iterator : Option StreamState
  accumulated_text : String
  response_id : Option String
  final_message : Option Message

/-- `getattr(self.stream_iterator, "input_tokens", 0)` and its
`output_tokens` sibling: a `None` iterator has no such attribute, so
the default 0 is used. -/
def iteratorTokens (it : Option StreamState) : PyVal × PyVal :=
  match it with
  | some s => (s.input_tokens, s.output_tokens)
  | Option.none => (PyVal.int 0, PyVal.int 0)

/-- `BedrockStreamWrapper._create_final_message`: a no-op when the
final message already exists; otherwise builds it from the iterator
token counts and the accumulated text.  This same function runs on
stream exhaustion (`text_stream` hitting `StopIteration`) and on an
explicit `get_final_message` call. -/
def _create_final_message (w : BedrockStreamWrapper) (genId : String → String) :
    Except BedrockErr BedrockStreamWrapper :=
  match w.final_message with
  | some _ => Except.ok w
  | Option.none => do
    let toks := iteratorTokens w.stream_iterator
    let rid := genId w.accumulated_text
    let msg ← create_anthropic_response w.accumulated_text toks.1 toks.2 w.model
      (some rid) genId
    Except.ok { w with response_id := some rid, final_message := some msg }

/-- `BedrockStreamWrapper.get_final_message`: returns the cached final
message when present, otherwise creates it first.  (The `streamError`
arm is unreachable: `_create_final_message` always sets the message on
success.) -/
def get_final_message (w : BedrockStreamWrapper) (genId : String → String) :
    Except BedrockErr (Message × BedrockStreamWrapper) :=
  match w.final_message with
  | some m => Except.ok (m, w)
  | Option.none =>
    match _create_final_message w genId with
    | Except.error e => Except.error e
    | Except.ok w' =>
      match w'.final_message with
      | some m => Except.ok (m, w')
      | Option.none => Except.error (BedrockErr.streamError "no final message")

/-! ## middleware.py -/

/-- Python dict assignment `sanitized[key] = value`: overwrites an
existing entry in place, otherwise appends (insertion order). -/
def insertKV (es : List (String × PyVal)) (k : String) (v : PyVal) :
    List (String × PyVal) :=
  if es.any (fun kv => kv.1 == k) then
    es.map (fun kv => if kv.1 == k then (k, v) else kv)
  else es ++ [(k, v)]

mutual

/-- `_sanitize_metadata` from `middleware.py` (the `operation_name`
argument only feeds log messages and is dropped).  Returns the
sanitized dict, string-keyed by construction; depth beyond `max_depth`
truncates to the empty dict, a non-dict argument likewise becomes the
empty dict. -/
def _sanitize_metadata (metadata : PyVal) (max_depth : Nat) (current_depth : Nat) :
    List (String × PyVal) :=
  if current_depth > max_depth then []
  else
    match metadata with
    | PyVal.dict entries => sanitizeItems entries max_depth current_depth []
    | _ => []

/-- The `for key, value in metadata.items()` loop of
`_sanitize_metadata`: keys coerced to strings, nested dicts recursed
one level deeper, lists and tuples stringified, scalars and `None`
passed through, anything else stringified. -/
def sanitizeItems (items : List (PyKey × PyVal)) (max_depth : Nat)
    (current_depth : Nat) (sanitized : List (String × PyVal)) :
    List (String × PyVal) :=
  match items with
  | [] => sanitized
  | (k, v) :: rest =>
    let sv : PyVal :=
      match v with
      | PyVal.dict es =>
        PyVal.dict ((_sanitize_metadata (PyVal.dict es) max_depth (current_depth + 1)).map
          (fun kv => (PyKey.str kv.1, kv.2)))
      | PyVal.list xs => PyVal.str (pyStr (PyVal.list xs))
      | PyVal.tuple xs => PyVal.str (pyStr (PyVal.tuple xs))
      | PyVal.str s => PyVal.str s
      | PyVal.int n => PyVal.int n
      | PyVal.float q => PyVal.float q
      | PyVal.bool b => PyVal.bool b
      | PyVal.none => PyVal.none
      | PyVal.obj r => PyVal.str (pyStr (PyVal.obj r))
    sanitizeItems rest max_depth current_depth (insertKV sanitized (keyStr k) sv)

end

/-- The value branch of the sanitizer loop body, written out as a
standalone function for the proofs below (definitionally equal to the
`sv` computed inside `sanitizeItems`). -/
def sanitizeValue (v : PyVal) (max_depth : Nat) (current_depth : Nat) : PyVal :=
  match v with
  | PyVal.dict es =>
    PyVal.dict ((_sanitize_metadata (PyVal.dict es) max_depth (current_depth + 1)).map
      (fun kv => (PyKey.str kv.1, kv.2)))
  | PyVal.list xs => PyVal.str (pyStr (PyVal.list xs))
  | PyVal.tuple xs => PyVal.str (pyStr (PyVal.tuple xs))
  | PyVal.str s => PyVal.str s
  | PyVal.int n => PyVal.int n
  | PyVal.float q => PyVal.float q
  | PyVal.bool b => PyVal.bool b
  | PyVal.none => PyVal.none
  | PyVal.obj r => PyVal.str (pyStr (PyVal.obj r))

/-- `_sanitize_metadata` at its default arguments (`max_depth=5`,
`current_depth=0`), as called by `extract_usage_metadata_and_timing`. -/
def sanitize_metadata (metadata : PyVal) : List (String × PyVal) :=
  _sanitize_metadata metadata 5 0

/-- `extract_usage_metadata_and_timing` from `middleware.py`, minus the
wall-clock timestamps (pure clock reads, irrelevant to the claims):
pops `usage_metadata` out of the kwargs (default empty dict), replaces
a non-dict value with the empty dict, merges with the ambient
decorator metadata (the external `merge_metadata` from the core
package, abstracted as a function argument), sanitizes, and returns
the metadata together with the stripped kwargs. -/
def extract_usage_metadata_and_timing (kwargs : Kwargs)
    (merge_metadata : List (PyKey × PyVal) → List (PyKey × PyVal)) :
    List (String × PyVal) × Kwargs :=
  let popped := kwPop kwargs "usage_metadata" (PyVal.dict [])
  let api_metadata : List (PyKey × PyVal) :=
    match popped.1 with
    | PyVal.dict es => es
    | _ => []
  let usage_metadata := merge_metadata api_metadata
  (sanitize_metadata (PyVal.dict usage_metadata), popped.2)

/-- The `finish_reason_map` literal of `create_wrapper` (duplicated
verbatim in `stream_wrapper.StreamWrapper.__exit__`). -/
def finish_reason_map : List (String × String) :=
  [("end_turn", "END"), ("tool_use", "END_SEQUENCE"),
   ("max_tokens", "TOKEN_LIMIT"), ("content_filter", "ERROR")]

/-- The inline stop-reason snippet of `create_wrapper` (lines 463-473)
and `StreamWrapper.__exit__` (lines 668-678): a falsy
`response.stop_reason` leaves `anthropic_finish_reason = None`, then
`finish_reason_map.get(anthropic_finish_reason, "end_turn")`. -/
def normalize_stop_reason (stop_reason : Option String) : String :=
  let anthropic_finish_reason : Option String :=
    match stop_reason with
    | some s => if s != "" then some s else Option.none
    | Option.none => Option.none
  match anthropic_finish_reason with
  | some s =>
    match finish_reason_map.lookup s with
    | some r => r
    | Option.none => "end_turn"
  | Option.none => "end_turn"

/-- The metering record handed to `client.ai.create_completion` on the
direct path: the fields the claims constrain.  Timing fields, trace
fields and the subscriber block are pass-throughs of the clock and of
`usage_metadata` (kept here in raw form) and are not separately
modelled. -/
structure UsageEvent where
  cache_creation_token_count : Int
  cache_read_token_count : Int
  output_token_count : Int
  input_token_count : Int
  model : String
  provider : String
  model_source : String
  stop_reason : String
  total_token_count : Int
  transaction_id : String
  is_streamed : Bool
  usage_metadata : List (String × PyVal)

/-- What became of one metering submission.  There is no constructor
for a propagated exception: both `_safe_run_async_in_thread` and the
`metering_call` coroutine catch everything and at worst log. -/
inductive MeteringOutcome where
  | skippedAtSubmit
  | skippedInCoroutine
  | delivered (ev : UsageEvent)
  | failedLogged (ev : UsageEvent)

/-- Whether a delivery to the metering backend was actually attempted. -/
def MeteringOutcome.attempted : MeteringOutcome → Bool
  | MeteringOutcome.delivered _ => true
  | MeteringOutcome.failedLogged _ => true
  | _ => false

/-- The `metering_call` coroutine body (`create_wrapper`, lines
478-484 onward): re-checks the shutdown signal when it actually runs,
then calls the backend client; any delivery exception is caught and
logged (`failedLogged`), never re-raised. -/
def metering_call (shutdown_in_coroutine : Bool)
    (deliver : UsageEvent → Except String Unit) (ev : UsageEvent) :
    MeteringOutcome :=
  if shutdown_in_coroutine then MeteringOutcome.skippedInCoroutine
  else
    match deliver ev with
    | Except.ok _ => MeteringOutcome.delivered ev
    | Except.error _ => MeteringOutcome.failedLogged ev

/-- `_safe_run_async_in_thread` from `middleware.py`: checks the
shutdown signal at submission time (skipping scheduling entirely when
set), otherwise schedules the coroutine, which performs its own check
when it runs (the two checks may observe different values, scheduling
and execution being separated in time). -/
def _safe_run_async_in_thread (shutdown_at_submit shutdown_in_coroutine : Bool)
    (deliver : UsageEvent → Except String Unit) (ev : UsageEvent) :
    MeteringOutcome :=
  if shutdown_at_submit then MeteringOutcome.skippedAtSubmit
  else metering_call shutdown_in_coroutine deliver ev

/-- The caller-visible result of one intercepted `Messages.create`
call: the returned response, and the direct-path metering outcome
(`Option.none` when the call was answered by the Bedrock handler,
which dispatches its own metering internally). -/
structure WrapperResult where
  response : Message
  metering : Option MeteringOutcome

/-- `create_wrapper` from `middleware.py`.  External collaborators are
function arguments: `merge_metadata` (decorator layer),
`bedrock_handler` (`_handle_bedrock_request`, whose transport leg is a
network call), `wrapped` (the direct Anthropic transport), `deliver`
(the metering backend client).  The Bedrock route is taken only when
the disable flag is unset and `detect_provider` says `BEDROCK`; every
exception class the handler can raise (`BedrockValidationError`,
`BedrockInvokeError`, `ImportError`, or anything else) is caught and
the call falls through to the direct transport with the already
stripped kwargs, so the wrapper itself never raises. -/
def create_wrapper
    (bedrock_disabled : Bool)
    (instance_client : Option Client)
    (kwargs : Kwargs)
    (merge_metadata : List (PyKey × PyVal) → List (PyKey × PyVal))
    (bedrock_handler : Kwargs → List (String × PyVal) → Except BedrockErr Message)
    (wrapped : Kwargs → Message)
    (shutdown_at_submit shutdown_in_coroutine : Bool)
    (deliver : UsageEvent → Except String Unit) : WrapperResult :=
  let extracted := extract_usage_metadata_and_timing kwargs merge_metadata
  let usage_metadata := extracted.1
  let kwargs := extracted.2
  let provider :=
    if bedrock_disabled then Provider.ANTHROPIC
    else detect_provider instance_client (some (kwGetOpt kwargs "base_url"))
  let fromBedrock : Option Message :=
    if provider = Provider.BEDROCK then
      match bedrock_handler kwargs usage_metadata with
      | Except.ok resp => some resp
      | Except.error _ => Option.none
    else Option.none
  match fromBedrock with
  | some resp => { response := resp, metering := Option.none }
  | Option.none =>
    let response := wrapped kwargs
    let stop_reason := normalize_stop_reason response.stop_reason
    -- on this path `provider` is always ANTHROPIC: either it was
    -- detected as such, or the Bedrock failure reset it before the
    -- metering block
    let provider_metadata := get_provider_metadata Provider.ANTHROPIC
    let ev : UsageEvent := {
      cache_creation_token_count := response.usage.cache_creation_input_tokens,
      cache_read_token_count := response.usage.cache_read_input_tokens,
      output_token_count := response.usage.output_tokens,
      input_token_count := response.usage.input_tokens,
      model := response.model,
      provider := provider_metadata.provider,
      model_source := provider_metadata.model_source,
      stop_reason := stop_reason,
      total_token_count := response.usage.input_tokens + response.usage.output_tokens,
      transaction_id := response.id,
      is_streamed := false,
      usage_metadata := usage_metadata }
    { response := response,
      metering := some (_safe_run_async_in_thread shutdown_at_submit
        shutdown_in_coroutine deliver ev) }

/-! ## Theorems -/

/-- C7: given two `content_block_delta` events carrying "Hello" and
" world" followed by a `message_stop` event with usage input=10 and
output=5, the decoder yields exactly ["Hello", " world"] in order,
leaves `accumulated_text = "Hello world"`, and fixes the token counts
at (10, 5); and a chunk that fails to decode as JSON, inserted in the
middle of the sequence, is skipped without changing any of this. -/
theorem bedrock_stream_decoder_hello_world :
    (_process_stream
        [StreamEvent.chunk (PyVal.dict
            [(PyKey.str "type", PyVal.str "content_block_delta"),
             (PyKey.str "delta", PyVal.dict [(PyKey.str "text", PyVal.str "Hello")])]),
         StreamEvent.chunk (PyVal.dict
            [(PyKey.str "type", PyVal.str "content_block_delta"),
             (PyKey.str "delta", PyVal.dict [(PyKey.str "text", PyVal.str " world")])]),
         StreamEvent.chunk (PyVal.dict
            [(PyKey.str "type", PyVal.str "message_stop"),
             (PyKey.str "usage", PyVal.dict
               [(PyKey.str "input_tokens", PyVal.int 10),
                (PyKey.str "output_tokens", PyVal.int 5)])])]
        StreamState.init
      = ({ accumulated_text := "Hello world",
           input_tokens := PyVal.int 10,
           output_tokens := PyVal.int 5 }, ["Hello", " world"])) ∧
    (_process_stream
        [StreamEvent.chunk (PyVal.dict
            [(PyKey.str "type", PyVal.str "content_block_delta"),
             (PyKey.str "delta", PyVal.dict [(PyKey.str "text", PyVal.str "Hello")])]),
         StreamEvent.malformed "this is not json",
         StreamEvent.chunk (PyVal.dict
            [(PyKey.str "type", PyVal.str "content_block_delta"),
             (PyKey.str "delta", PyVal.dict [(PyKey.str "text", PyVal.str " world")])]),
         StreamEvent.chunk (PyVal.dict
            [(PyKey.str "type", PyVal.str "message_stop"),
             (PyKey.str "usage", PyVal.dict
               [(PyKey.str "input_tokens", PyVal.int 10),
                (PyKey.str "output_tokens", PyVal.int 5)])])]
        StreamState.init
      = ({ accumulated_text := "Hello world",
           input_tokens := PyVal.int 10,
           output_tokens := PyVal.int 5 }, ["Hello", " world"])) :=
  ⟨rfl, rfl⟩

/-- A direct-route response whose provider stop reason is the (real but
unmapped) value `pause_turn`. -/
def pauseTurnResponse : Message :=
  { id := "msg_01", type := "message", role := "assistant",
    model := "claude-3-5-sonnet-20241022",
    content := [{ type := "text", text := "Hi" }],
    usage := { input_tokens := 7, output_tokens := 3, total_tokens := 10,
               cache_creation_input_tokens := 0, cache_read_input_tokens := 0 },
    stop_reason := some "pause_turn", stop_sequence := Option.none }

/-- The usage event the middleware actually meters for
`pauseTurnResponse`: its `stop_reason` is the raw token `"end_turn"`,
which is not a member of the closed vocabulary. -/
def pauseTurnEvent : UsageEvent :=
  { cache_creation_token_count := 0, cache_read_token_count := 0,
    output_token_count := 3, input_token_count := 7,
    model := "claude-3-5-sonnet-20241022",
    provider := "ANTHROPIC", model_source := "ANTHROPIC",
    stop_reason := "end_turn", total_token_count := 10,
    transaction_id := "msg_01", is_streamed := false, usage_metadata := [] }

/-- C3 (code bug): the four known provider stop reasons are mapped to
the closed vocabulary END / END_SEQUENCE / TOKEN_LIMIT / ERROR as
claimed, but a stop reason outside the map (here `pause_turn`) and an
absent stop reason are normalized to the raw provider token
`"end_turn"` — which is not in the closed vocabulary — instead of the
claimed normal-completion value `"END"`
(`finish_reason_map.get(..., "end_turn")` in the source; the repo's
own tests say the default should be `"END"`).  The last conjunct runs
the failing input through `create_wrapper`: the metered event carries
`stop_reason = "end_turn"`. -/
theorem stop_reason_normalization_bug :
    normalize_stop_reason (some "end_turn") = "END" ∧
    normalize_stop_reason (some "tool_use") = "END_SEQUENCE" ∧
    normalize_stop_reason (some "max_tokens") = "TOKEN_LIMIT" ∧
    normalize_stop_reason (some "content_filter") = "ERROR" ∧
    normalize_stop_reason (some "pause_turn") = "end_turn" ∧
    normalize_stop_reason Option.none = "end_turn" ∧
    (["END", "END_SEQUENCE", "TOKEN_LIMIT", "ERROR"].contains "end_turn") = false ∧
    (create_wrapper false Option.none [] (fun md => md)
        (fun _ _ => Except.error (BedrockErr.otherError "unused"))
        (fun _ => pauseTurnResponse) false false
        (fun _ => Except.ok ())).metering
      = some (MeteringOutcome.delivered pauseTurnEvent) :=
  ⟨rfl, rfl, rfl, rfl, rfl, rfl, by decide, rfl⟩

/-- The claim-side Bedrock URL condition: `str(url).lower()` contains
the substring `"amazonaws.com"`. -/
def mentionsAmazon : Option PyVal → Bool
  | some v => strContains (strToLower (pyStr v)) "amazonaws.com"
  | Option.none => false

/-- Any value whose `str()` rendering contains `"amazonaws.com"` is
truthy: every falsy `PyVal` renders as one of "None", "False", "0",
"0/1", "", "[]", "()" or "\x7b\x7d", none of which contains it. -/
lemma pyTruthy_of_amazon (v : PyVal)
    (h : strContains (strToLower (pyStr v)) "amazonaws.com" = true) :
    pyTruthy v = true := by
  cases v with
  | none => exact absurd h (by decide)
  | bool b =>
    cases b with
    | false => exact absurd h (by decide)
    | true => rfl
  | int n =>
    by_cases h0 : n = 0
    · subst h0; exact absurd h (by decide)
    · simp [pyTruthy, h0]
  | float q =>
    by_cases h0 : q = 0
    · subst h0
      have h1 : pyStr (PyVal.float 0) = "0/1" := by
        show toString (0 : ℚ).num ++ "/" ++ toString (0 : ℚ).den = "0/1"
        norm_num
        rfl
      rw [h1] at h
      exact absurd h (by decide)
    · simp [pyTruthy, h0]
  | str s =>
    by_cases h0 : s = ""
    · subst h0; exact absurd h (by decide)
    · simp [pyTruthy, h0]
  | list xs =>
    cases xs with
    | nil => exact absurd h (by decide)
    | cons a as => simp [pyTruthy]
  | tuple xs =>
    cases xs with
    | nil => exact absurd h (by decide)
    | cons a as => simp [pyTruthy]
  | dict es =>
    cases es with
    | nil => exact absurd h (by decide)
    | cons a as => simp [pyTruthy]
  | obj r => rfl

/-- The source condition (truthiness and containment) coincides with
the claim condition (containment alone), because containment forces
truthiness. -/
lemma urlIsBedrock_eq_mentionsAmazon (o : Option PyVal) :
    urlIsBedrock o = mentionsAmazon o := by
  cases o with
  | none => rfl
  | some v =>
    show (pyTruthy v && strContains (strToLower (pyStr v)) "amazonaws.com")
        = strContains (strToLower (pyStr v)) "amazonaws.com"
    by_cases h : strContains (strToLower (pyStr v)) "amazonaws.com" = true
    · rw [h, pyTruthy_of_amazon v h]
      rfl
    · have h' : strContains (strToLower (pyStr v)) "amazonaws.com" = false :=
        Bool.not_eq_true _ ▸ Bool.of_not_eq_true h
      rw [h']; simp

/-- C6: `detect_provider` classifies exactly as claimed — a client
whose service-model service name is `"bedrock-runtime"` always yields
`BEDROCK`; failing that, a given `base_url` or a client `base_url`
whose lowercased string form contains `"amazonaws.com"` yields
`BEDROCK`; with neither signal it yields `ANTHROPIC`.  The function is
total (never raises); missing or malformed client attributes are
simply the `Option.none` cases of these hypotheses. -/
theorem detect_provider_classification (client : Option Client) (base_url : Option PyVal) :
    (clientServiceName client = some "bedrock-runtime" →
      detect_provider client base_url = Provider.BEDROCK) ∧
    (clientServiceName client ≠ some "bedrock-runtime" →
      (mentionsAmazon base_url = true ∨ mentionsAmazon (clientBaseUrl client) = true) →
      detect_provider client base_url = Provider.BEDROCK) ∧
    (clientServiceName client ≠ some "bedrock-runtime" →
      mentionsAmazon base_url = false →
      mentionsAmazon (clientBaseUrl client) = false →
      detect_provider client base_url = Provider.ANTHROPIC) := by
  refine ⟨fun h => ?_, fun h hm => ?_, fun h h1 h2 => ?_⟩
  · simp [detect_provider, h]
  · have hbeq : (clientServiceName client == some "bedrock-runtime") = false := by
      simp [h]
    rcases hm with hm | hm
    · simp [detect_provider, hbeq, urlIsBedrock_eq_mentionsAmazon, hm]
    · cases hb : mentionsAmazon base_url <;>
        simp [detect_provider, hbeq, urlIsBedrock_eq_mentionsAmazon, hm, hb]
  · have hbeq : (clientServiceName client == some "bedrock-runtime") = false := by
      simp [h]
    simp [detect_provider, hbeq, urlIsBedrock_eq_mentionsAmazon, h1, h2]

/-- Witness for C6: a bedrock-runtime client, an AWS URL in mixed
case, and the signal-free default, each classified concretely. -/
theorem detect_provider_classification_witness :
    detect_provider
        (some { meta := some { service_name := some "bedrock-runtime" },
                base_url := Option.none }) Option.none = Provider.BEDROCK ∧
    detect_provider Option.none
        (some (PyVal.str "https://bedrock.us-east-1.AmazonAWS.com")) = Provider.BEDROCK ∧
    detect_provider Option.none Option.none = Provider.ANTHROPIC :=
  ⟨(detect_provider_classification _ _).1 rfl,
   (detect_provider_classification _ _).2.1 (by decide) (Or.inl (by decide)),
   (detect_provider_classification _ _).2.2 (by decide) rfl rfl⟩

/-- C1: on the Bedrock route, whenever the Bedrock handler fails with
any exception `e` — `BedrockInvokeError`, `BedrockValidationError`,
`ImportError` for the missing optional dependency, or anything else —
`create_wrapper` returns the direct transport's response on the
original (metadata-stripped) arguments.  `create_wrapper` returning a
plain `WrapperResult` (not an `Except`) is the model-level statement
that no Bedrock-originated exception ever reaches the caller. -/
theorem create_wrapper_bedrock_fallback
    (client : Option Client) (kwargs : Kwargs)
    (mm : List (PyKey × PyVal) → List (PyKey × PyVal))
    (bh : Kwargs → List (String × PyVal) → Except BedrockErr Message)
    (w : Kwargs → Message) (s1 s2 : Bool) (dl : UsageEvent → Except String Unit)
    (e : BedrockErr)
    (hroute : detect_provider client
        (some (kwGetOpt (extract_usage_metadata_and_timing kwargs mm).2 "base_url"))
      = Provider.BEDROCK)
    (hfail : bh (extract_usage_metadata_and_timing kwargs mm).2
        (extract_usage_metadata_and_timing kwargs mm).1 = Except.error e) :
    (create_wrapper false client kwargs mm bh w s1 s2 dl).response
      = w (extract_usage_metadata_and_timing kwargs mm).2 := by
  simp [create_wrapper, hroute, hfail]

/-- Witness for C1: a bedrock-runtime client whose handler raises an
invoke error; the caller receives the direct transport's response. -/
theorem create_wrapper_bedrock_fallback_witness :
    (create_wrapper false
        (some { meta := some { service_name := some "bedrock-runtime" },
                base_url := Option.none })
        [("model", PyVal.str "claude-3-5-sonnet-20241022")]
        (fun md => md)
        (fun _ _ => Except.error (BedrockErr.invokeError "HTTP 500 from Bedrock"))
        (fun _ =>
          { id := "msg_direct", type := "message", role := "assistant",
            model := "claude-3-5-sonnet-20241022", content := [],
            usage := { input_tokens := 1, output_tokens := 2, total_tokens := 3,
                       cache_creation_input_tokens := 0, cache_read_input_tokens := 0 },
            stop_reason := some "end_turn", stop_sequence := Option.none })
        false false (fun _ => Except.ok ())).response
      = { id := "msg_direct", type := "message", role := "assistant",
          model := "claude-3-5-sonnet-20241022", content := [],
          usage := { input_tokens := 1, output_tokens := 2, total_tokens := 3,
                     cache_creation_input_tokens := 0, cache_read_input_tokens := 0 },
          stop_reason := some "end_turn", stop_sequence := Option.none } :=
  create_wrapper_bedrock_fallback _ _ _ _ _ _ _ _
    (BedrockErr.invokeError "HTTP 500 from Bedrock") (by decide) rfl

/-- Looking up any other key is unaffected by filtering one key out. -/
lemma lookup_filter_ne (l : Kwargs) (key k : String) (hk : k ≠ key) :
    (l.filter (fun kv => kv.1 != key)).lookup k = l.lookup k := by
  have hkk : (k == key) = false := by simp [hk]
  induction l with
  | nil => rfl
  | cons a t ih =>
    cases a with
    | mk ka va =>
      by_cases h0 : ka = key
      · subst h0
        simp [List.filter_cons, List.lookup, hkk, ih]
      · by_cases hka : k = ka
        · subst hka
          simp [List.filter_cons, h0, List.lookup]
        · have hak : (k == ka) = false := by simp [hka]
          simp [List.filter_cons, h0, List.lookup, hak, ih]

/-- Looking up the filtered-out key yields nothing. -/
lemma lookup_filter_self (l : Kwargs) (key : String) :
    (l.filter (fun kv => kv.1 != key)).lookup key = Option.none := by
  induction l with
  | nil => rfl
  | cons a t ih =>
    cases a with
    | mk ka va =>
      by_cases h0 : ka = key
      · subst h0
        simp [List.filter_cons, ih]
      · have hak : (key == ka) = false := by simp [Ne.symm h0]
        simp [List.filter_cons, h0, List.lookup, hak, ih]

/-- C2: `create_wrapper` removes the `usage_metadata` key from the
keyword arguments before any transport sees them, leaves every other
key looking up to exactly its original value, and on the direct route
returns the transport's response object unmodified (the conclusion
holds for an arbitrary transport function `w`, so the response is
whatever the transport produced on the stripped arguments, untouched). -/
theorem usage_metadata_stripped
    (client : Option Client) (kwargs : Kwargs)
    (mm : List (PyKey × PyVal) → List (PyKey × PyVal))
    (bh : Kwargs → List (String × PyVal) → Except BedrockErr Message)
    (w : Kwargs → Message) (s1 s2 : Bool) (dl : UsageEvent → Except String Unit) :
    ((extract_usage_metadata_and_timing kwargs mm).2).lookup "usage_metadata"
        = Option.none ∧
    (∀ k, k ≠ "usage_metadata" →
      ((extract_usage_metadata_and_timing kwargs mm).2).lookup k = kwargs.lookup k) ∧
    (detect_provider client
        (some (kwGetOpt (extract_usage_metadata_and_timing kwargs mm).2 "base_url"))
        = Provider.ANTHROPIC →
      (create_wrapper false client kwargs mm bh w s1 s2 dl).response
        = w (extract_usage_metadata_and_timing kwargs mm).2) := by
  refine ⟨?_, ?_, ?_⟩
  · exact lookup_filter_self kwargs "usage_metadata"
  · intro k hk
    exact lookup_filter_ne kwargs "usage_metadata" k hk
  · intro hdirect
    simp [create_wrapper, hdirect]

/-- A concrete direct-route response used by the C2 witness. -/
def directResponseC2 : Message :=
  { id := "msg_c2", type := "message", role := "assistant",
    model := "claude-3", content := [],
    usage := { input_tokens := 4, output_tokens := 5, total_tokens := 9,
               cache_creation_input_tokens := 0, cache_read_input_tokens := 0 },
    stop_reason := some "end_turn", stop_sequence := Option.none }

/-- Witness for C2 at a concrete call: the popped key is gone, the
`model` key survives with its value, and the response is the direct
transport's object. -/
theorem usage_metadata_stripped_witness :
    ((extract_usage_metadata_and_timing
        [("usage_metadata", PyVal.dict [(PyKey.str "organization_id", PyVal.str "acme")]),
         ("model", PyVal.str "claude-3")] (fun md => md)).2).lookup "usage_metadata"
      = Option.none ∧
    ((extract_usage_metadata_and_timing
        [("usage_metadata", PyVal.dict [(PyKey.str "organization_id", PyVal.str "acme")]),
         ("model", PyVal.str "claude-3")] (fun md => md)).2).lookup "model"
      = some (PyVal.str "claude-3") ∧
    (create_wrapper false Option.none
        [("usage_metadata", PyVal.dict [(PyKey.str "organization_id", PyVal.str "acme")]),
         ("model", PyVal.str "claude-3")] (fun md => md)
        (fun _ _ => Except.error (BedrockErr.otherError "unused"))
        (fun _ => directResponseC2)
        false false (fun _ => Except.ok ())).response
      = directResponseC2 :=
  ⟨(usage_metadata_stripped Option.none _ (fun md => md)
      (fun _ _ => Except.error (BedrockErr.otherError "unused"))
      (fun _ => directResponseC2) false false (fun _ => Except.ok ())).1,
   ((usage_metadata_stripped Option.none _ (fun md => md)
      (fun _ _ => Except.error (BedrockErr.otherError "unused"))
      (fun _ => directResponseC2) false false (fun _ => Except.ok ())).2.1
      "model" (by decide)).trans rfl,
   (usage_metadata_stripped Option.none _ (fun md => md)
      (fun _ _ => Except.error (BedrockErr.otherError "unused"))
      (fun _ => directResponseC2) false false (fun _ => Except.ok ())).2.2 (by decide)⟩

/-- C9: on a direct-route call the caller always receives the
transport's response, whatever the shutdown signal says; a shutdown
observed at submission time skips the metering entirely
(`skippedAtSubmit`); one observed only inside the delivery coroutine
skips it there (`skippedInCoroutine`); and whenever either of the two
checks sees shutdown, no delivery to the metering backend is
attempted.  `MeteringOutcome` having no exception constructor is the
model-level statement that neither path propagates any error. -/
theorem shutdown_skips_metering
    (client : Option Client) (kwargs : Kwargs)
    (mm : List (PyKey × PyVal) → List (PyKey × PyVal))
    (bh : Kwargs → List (String × PyVal) → Except BedrockErr Message)
    (w : Kwargs → Message) (dl : UsageEvent → Except String Unit)
    (hdirect : detect_provider client
        (some (kwGetOpt (extract_usage_metadata_and_timing kwargs mm).2 "base_url"))
      = Provider.ANTHROPIC) :
    (∀ s1 s2 : Bool, (create_wrapper false client kwargs mm bh w s1 s2 dl).response
        = w (extract_usage_metadata_and_timing kwargs mm).2) ∧
    (∀ s2 : Bool, (create_wrapper false client kwargs mm bh w true s2 dl).metering
        = some MeteringOutcome.skippedAtSubmit) ∧
    ((create_wrapper false client kwargs mm bh w false true dl).metering
        = some MeteringOutcome.skippedInCoroutine) ∧
    (∀ (s1 s2 : Bool) (out : MeteringOutcome), (s1 = true ∨ s2 = true) →
      (create_wrapper false client kwargs mm bh w s1 s2 dl).metering = some out →
      out.attempted = false) := by
  refine ⟨?_, ?_, ?_, ?_⟩
  · intro s1 s2
    simp [create_wrapper, hdirect]
  · intro s2
    simp [create_wrapper, hdirect, _safe_run_async_in_thread]
  · simp [create_wrapper, hdirect, _safe_run_async_in_thread, metering_call]
  · intro s1 s2 out h hmet
    cases s1 with
    | true =>
      simp [create_wrapper, hdirect, _safe_run_async_in_thread] at hmet
      rw [← hmet]
      rfl
    | false =>
      cases s2 with
      | true =>
        simp [create_wrapper, hdirect, _safe_run_async_in_thread, metering_call] at hmet
        rw [← hmet]
        rfl
      | false =>
        rcases h with h | h <;> simp at h

/-- A concrete direct-route response used by the C9 witness. -/
def directResponseC9 : Message :=
  { id := "msg_c9", type := "message", role := "assistant",
    model := "claude-3", content := [],
    usage := { input_tokens := 4, output_tokens := 5, total_tokens := 9,
               cache_creation_input_tokens := 0, cache_read_input_tokens := 0 },
    stop_reason := some "end_turn", stop_sequence := Option.none }

/-- Witness for C9: a concrete direct-route call with the shutdown
flag set at submission returns the transport response and skips
metering; set only in the coroutine, likewise. -/
theorem shutdown_skips_metering_witness :
    (create_wrapper false Option.none [("model", PyVal.str "claude-3")] (fun md => md)
        (fun _ _ => Except.error (BedrockErr.otherError "unused"))
        (fun _ => directResponseC9)
        true false (fun _ => Except.ok ())).response = directResponseC9 ∧
    (create_wrapper false Option.none [("model", PyVal.str "claude-3")] (fun md => md)
        (fun _ _ => Except.error (BedrockErr.otherError "unused"))
        (fun _ => directResponseC9)
        true false (fun _ => Except.ok ())).metering
      = some MeteringOutcome.skippedAtSubmit ∧
    (create_wrapper false Option.none [("model", PyVal.str "claude-3")] (fun md => md)
        (fun _ _ => Except.error (BedrockErr.otherError "unused"))
        (fun _ => directResponseC9)
        false true (fun _ => Except.ok ())).metering
      = some MeteringOutcome.skippedInCoroutine :=
  ⟨(shutdown_skips_metering Option.none _ (fun md => md)
      (fun _ _ => Except.error (BedrockErr.otherError "unused"))
      (fun _ => directResponseC9) (fun _ => Except.ok ()) (by decide)).1 true false,
   (shutdown_skips_metering Option.none _ (fun md => md)
      (fun _ _ => Except.error (BedrockErr.otherError "unused"))
      (fun _ => directResponseC9) (fun _ => Except.ok ()) (by decide)).2.1 false,
   (shutdown_skips_metering Option.none _ (fun md => md)
      (fun _ _ => Except.error (BedrockErr.otherError "unused"))
      (fun _ => directResponseC9) (fun _ => Except.ok ()) (by decide)).2.2.1⟩

/-- Messages that are all dicts carrying `role` and `content` pass the
elementwise validation. -/
lemma validateMessageList_ok (msgs : List PyVal)
    (hall : ∀ m ∈ msgs, ∃ es, m = PyVal.dict es ∧
      dictHasKey es "role" = true ∧ dictHasKey es "content" = true) :
    ∃ l, validateMessageList msgs = Except.ok l := by
  induction msgs with
  | nil => exact ⟨[], rfl⟩
  | cons m rest ih =>
    obtain ⟨es, hm, hrole, hcontent⟩ := hall m (List.mem_cons_self m rest)
    subst hm
    obtain ⟨l, hl⟩ := ih (fun x hx => hall x (List.mem_cons_of_mem _ hx))
    refine ⟨es :: l, ?_⟩
    simp [validateMessageList, hrole, hcontent, hl, Except.map]

/-- C5: for a non-empty message list whose members all carry `role`
and `content`, and with `max_tokens` passed as a Python int:
in range 1..200000 the payload builder succeeds and the envelope's
`max_tokens` is exactly the input; out of range it fails with a
`BedrockValidationError`.  `create_bedrock_payload` is a pure function
in this embedding — exactly as in the source, where every validation
failure is raised before any network transport is touched. -/
theorem create_bedrock_payload_max_tokens_range
    (messages : PyVal) (msgs : List PyVal)
    (hm : messages = PyVal.list msgs) (hne : msgs ≠ [])
    (hall : ∀ m ∈ msgs, ∃ es, m = PyVal.dict es ∧
      dictHasKey es "role" = true ∧ dictHasKey es "content" = true)
    (v : Int) :
    (1 ≤ v → v ≤ 200000 →
      ∃ p, create_bedrock_payload messages [("max_tokens", PyVal.int v)] = Except.ok p ∧
        p.max_tokens = PyVal.int v) ∧
    ((v ≤ 0 ∨ 200000 < v) →
      ∃ msg, create_bedrock_payload messages [("max_tokens", PyVal.int v)]
        = Except.error (BedrockErr.validationError msg)) := by
  subst hm
  obtain ⟨l, hl⟩ := validateMessageList_ok msgs hall
  have hmsgs : _validate_messages (PyVal.list msgs) = Except.ok l := by
    simp [_validate_messages, hne, hl]
  constructor
  · intro h1 h2
    have hv0 : ¬ (v ≤ 0) := by omega
    have hv1 : ¬ (v > 200000) := by omega
    have hmax : _validate_max_tokens (PyVal.int v) = Except.ok (PyVal.int v) := by
      simp [_validate_max_tokens, pyIntValue, hv0, hv1]
    refine ⟨{ anthropic_version := PyVal.str "bedrock-2023-05-31",
              messages := l, max_tokens := PyVal.int v,
              system := Option.none, temperature := Option.none,
              top_p := Option.none, top_k := Option.none,
              stop_sequences := Option.none }, ?_, rfl⟩
    have hget : kwGet [("max_tokens", PyVal.int v)] "max_tokens" (PyVal.int 1000)
        = PyVal.int v := rfl
    simp only [create_bedrock_payload, hmsgs]
    rw [hget, hmax]
    rfl
  · intro h
    rcases h with h | h
    · refine ⟨"max_tokens must be positive", ?_⟩
      have hmax : _validate_max_tokens (PyVal.int v)
          = Except.error (BedrockErr.validationError "max_tokens must be positive") := by
        simp [_validate_max_tokens, pyIntValue, h]
      have hget : kwGet [("max_tokens", PyVal.int v)] "max_tokens" (PyVal.int 1000)
          = PyVal.int v := rfl
      simp only [create_bedrock_payload, hmsgs]
      rw [hget, hmax]
      rfl
    · refine ⟨"max_tokens too large", ?_⟩
      have hv0 : ¬ (v ≤ 0) := by omega
      have hmax : _validate_max_tokens (PyVal.int v)
          = Except.error (BedrockErr.validationError "max_tokens too large") := by
        simp [_validate_max_tokens, pyIntValue, hv0, h]
      have hget : kwGet [("max_tokens", PyVal.int v)] "max_tokens" (PyVal.int 1000)
          = PyVal.int v := rfl
      simp only [create_bedrock_payload, hmsgs]
      rw [hget, hmax]
      rfl

/-- Witness for C5: one valid message, `max_tokens = 1000` succeeds
with 1000 in the envelope; `max_tokens = 300000` fails validation. -/
theorem create_bedrock_payload_max_tokens_range_witness :
    (∃ p, create_bedrock_payload
        (PyVal.list [PyVal.dict [(PyKey.str "role", PyVal.str "user"),
                                 (PyKey.str "content", PyVal.str "Hello")]])
        [("max_tokens", PyVal.int 1000)] = Except.ok p ∧
      p.max_tokens = PyVal.int 1000) ∧
    (∃ msg, create_bedrock_payload
        (PyVal.list [PyVal.dict [(PyKey.str "role", PyVal.str "user"),
                                 (PyKey.str "content", PyVal.str "Hello")]])
        [("max_tokens", PyVal.int 300000)]
      = Except.error (BedrockErr.validationError msg)) :=
  ⟨(create_bedrock_payload_max_tokens_range _ _ rfl (by simp)
      (by intro m hm; simp at hm; subst hm; exact ⟨_, rfl, rfl, rfl⟩) 1000).1
      (by decide) (by decide),
   (create_bedrock_payload_max_tokens_range _ _ rfl (by simp)
      (by intro m hm; simp at hm; subst hm; exact ⟨_, rfl, rfl, rfl⟩) 300000).2
      (Or.inr (by decide))⟩

/-- C10: `_validate_max_tokens` accepts some non-integer inputs — any
string Python's `int()` parses is coerced (so the payload can carry a
`max_tokens` that arrived as `"500"`), any float is truncated toward
zero (5.9 becomes 5, -5.9 becomes -5) — and `BedrockValidationError`
is raised exactly when the conversion fails or the coerced integer
falls outside 1..200000. -/
theorem validate_max_tokens_coercion :
    (∀ (s : String) (n : Int), pyIntOfString s = some n → 1 ≤ n → n ≤ 200000 →
      _validate_max_tokens (PyVal.str s) = Except.ok (PyVal.int n)) ∧
    (∀ s : String, pyIntOfString s = Option.none →
      _validate_max_tokens (PyVal.str s)
        = Except.error (BedrockErr.validationError "max_tokens must be an integer")) ∧
    (∀ (s : String) (n : Int), pyIntOfString s = some n → (n ≤ 0 ∨ 200000 < n) →
      ∃ msg, _validate_max_tokens (PyVal.str s)
        = Except.error (BedrockErr.validationError msg)) ∧
    (∀ q : ℚ, 1 ≤ pyIntOfFloat q → pyIntOfFloat q ≤ 200000 →
      _validate_max_tokens (PyVal.float q) = Except.ok (PyVal.int (pyIntOfFloat q))) ∧
    _validate_max_tokens (PyVal.str "500") = Except.ok (PyVal.int 500) ∧
    pyIntOfFloat (59/10 : ℚ) = 5 ∧
    pyIntOfFloat (-(59/10) : ℚ) = -5 ∧
    _validate_max_tokens (PyVal.float (59/10 : ℚ)) = Except.ok (PyVal.int 5) ∧
    (∃ p, create_bedrock_payload
        (PyVal.list [PyVal.dict [(PyKey.str "role", PyVal.str "user"),
                                 (PyKey.str "content", PyVal.str "Hi")]])
        [("max_tokens", PyVal.str "500")] = Except.ok p ∧
      p.max_tokens = PyVal.int 500) := by
  have h59 : pyIntOfFloat (59/10 : ℚ) = 5 := by norm_num [pyIntOfFloat]; decide
  have h59n : pyIntOfFloat (-(59/10) : ℚ) = -5 := by norm_num [pyIntOfFloat]; decide
  refine ⟨?_, ?_, ?_, ?_, rfl, h59, h59n, ?_, ⟨_, rfl, rfl⟩⟩
  · intro s n hs h1 h2
    have hv0 : ¬ (n ≤ 0) := by omega
    have hv1 : ¬ (n > 200000) := by omega
    simp [_validate_max_tokens, hs, pyIntValue, hv0, hv1]
  · intro s hs
    simp [_validate_max_tokens, hs]
  · intro s n hs h
    rcases h with h | h
    · exact ⟨"max_tokens must be positive", by simp [_validate_max_tokens, hs, pyIntValue, h]⟩
    · have hv0 : ¬ (n ≤ 0) := by omega
      exact ⟨"max_tokens too large", by simp [_validate_max_tokens, hs, pyIntValue, hv0, h]⟩
  · intro q h1 h2
    have hv0 : ¬ (pyIntOfFloat q ≤ 0) := by omega
    have hv1 : ¬ (pyIntOfFloat q > 200000) := by omega
    simp [_validate_max_tokens, pyIntValue, hv0, hv1]
  · simp [_validate_max_tokens, h59, pyIntValue]

/-- Witness for C10: the string "500" is accepted and coerced, the
string "12.5" fails `int()` conversion, and the string "300000"
converts but fails the range check. -/
theorem validate_max_tokens_coercion_witness :
    _validate_max_tokens (PyVal.str "500") = Except.ok (PyVal.int 500) ∧
    _validate_max_tokens (PyVal.str "12.5")
      = Except.error (BedrockErr.validationError "max_tokens must be an integer") ∧
    (∃ msg, _validate_max_tokens (PyVal.str "300000")
      = Except.error (BedrockErr.validationError msg)) :=
  ⟨validate_max_tokens_coercion.1 "500" 500 rfl (by decide) (by decide),
   validate_max_tokens_coercion.2.1 "12.5" rfl,
   validate_max_tokens_coercion.2.2.1 "300000" 300000 rfl (Or.inr (by decide))⟩

/-- A successful `_create_final_message` always leaves a final message
in place (either the cached one, or the one it just built). -/
lemma create_final_message_sets (w : BedrockStreamWrapper) (g : String → String)
    (w2 : BedrockStreamWrapper) (h : _create_final_message w g = Except.ok w2) :
    ∃ m, w2.final_message = some m := by
  cases hw : w.final_message with
  | some m =>
    simp [_create_final_message, hw] at h
    exact ⟨m, by rw [← h]; exact hw⟩
  | none =>
    simp [_create_final_message, hw] at h
    cases hcr : create_anthropic_response w.accumulated_text
        (iteratorTokens w.stream_iterator).1 (iteratorTokens w.stream_iterator).2
        w.model (some (g w.accumulated_text)) g with
    | error e => rw [hcr] at h; simp [Bind.bind, Except.bind] at h
    | ok msg =>
      rw [hcr] at h
      simp [Bind.bind, Except.bind] at h
      exact ⟨msg, by rw [← h]⟩

/-- C8: finalization of a Bedrock stream wrapper is idempotent.  If
the final message is already cached, `_create_final_message` is a
no-op (the state is returned unchanged) and `get_final_message`
returns the cached object.  And after any successful
`get_final_message`, the resulting state caches the returned message,
and a second finalization — even with a different id generator,
standing for the fresh uuid a rebuild would draw — returns the
identical message and state, so token counts are fixed at most once.
The same `_create_final_message` runs on stream exhaustion, so both
triggers are covered. -/
theorem bedrock_stream_finalize_idempotent
    (w : BedrockStreamWrapper) (g g2 : String → String) (m : Message) :
    (w.final_message = some m →
      _create_final_message w g = Except.ok w ∧
      get_final_message w g = Except.ok (m, w)) ∧
    (∀ (w' : BedrockStreamWrapper) (r : Message),
      get_final_message w g = Except.ok (r, w') →
      w'.final_message = some r ∧ get_final_message w' g2 = Except.ok (r, w')) := by
  constructor
  · intro h
    constructor
    · simp [_create_final_message, h]
    · simp [get_final_message, h]
  · intro w' r hget
    cases hw : w.final_message with
    | some m0 =>
      rw [show get_final_message w g = Except.ok (m0, w) by
        simp [get_final_message, hw]] at hget
      simp at hget
      obtain ⟨hr, hww⟩ := hget
      subst hr
      subst hww
      exact ⟨hw, by simp [get_final_message, hw]⟩
    | none =>
      simp [get_final_message, hw] at hget
      cases hc : _create_final_message w g with
      | error e => rw [hc] at hget; simp at hget
      | ok w2 =>
        rw [hc] at hget
        obtain ⟨m2, hm2⟩ := create_final_message_sets w g w2 hc
        simp [hm2] at hget
        obtain ⟨hr, hw2⟩ := hget
        subst hr
        subst hw2
        exact ⟨hm2, by simp [get_final_message, hm2]⟩

/-- A concrete payload for the C8 witness wrapper. -/
def payloadC8 : BedrockPayload :=
  { anthropic_version := PyVal.str "bedrock-2023-05-31",
    messages := [[(PyKey.str "role", PyVal.str "user"),
                  (PyKey.str "content", PyVal.str "Hi")]],
    max_tokens := PyVal.int 1000, system := Option.none,
    temperature := Option.none, top_p := Option.none, top_k := Option.none,
    stop_sequences := Option.none }

/-- The cached final message of the C8 witness wrapper. -/
def finalMessageC8 : Message :=
  { id := "msg_s1", type := "message", role := "assistant", model := "claude-3",
    content := [{ type := "text", text := "Hello world" }],
    usage := { input_tokens := 10, output_tokens := 5, total_tokens := 15,
               cache_creation_input_tokens := 0, cache_read_input_tokens := 0 },
    stop_reason := some "end_turn", stop_sequence := Option.none }

/-- A finalized stream wrapper: the final message is cached. -/
def wrapperC8 : BedrockStreamWrapper :=
  { model := PyVal.str "claude-3", payload := payloadC8, region := Option.none,
    usage_metadata := [],
    stream_iterator := some { accumulated_text := "Hello world",
                              input_tokens := PyVal.int 10,
                              output_tokens := PyVal.int 5 },
    accumulated_text := "Hello world", response_id := some "msg_s1",
    final_message := some finalMessageC8 }

/-- Witness for C8: on the concrete finalized wrapper, re-finalizing
is a no-op and `get_final_message` — even with a different id
generator — returns the identical cached message and state. -/
theorem bedrock_stream_finalize_idempotent_witness :
    _create_final_message wrapperC8 (fun s => s) = Except.ok wrapperC8 ∧
    get_final_message wrapperC8 (fun s => s)
      = Except.ok (finalMessageC8, wrapperC8) ∧
    get_final_message wrapperC8 (fun _ => "regenerated")
      = Except.ok (finalMessageC8, wrapperC8) :=
  ⟨((bedrock_stream_finalize_idempotent wrapperC8 (fun s => s)
      (fun _ => "regenerated") finalMessageC8).1 rfl).1,
   ((bedrock_stream_finalize_idempotent wrapperC8 (fun s => s)
      (fun _ => "regenerated") finalMessageC8).1 rfl).2,
   ((bedrock_stream_finalize_idempotent wrapperC8 (fun s => s)
      (fun _ => "regenerated") finalMessageC8).2 wrapperC8 finalMessageC8
      ((bedrock_stream_finalize_idempotent wrapperC8 (fun s => s)
        (fun _ => "regenerated") finalMessageC8).1 rfl).2).2⟩
/-- A value nested under `n` single-entry dictionary wrappers. -/
def nestChain : Nat → PyVal → PyVal
  | 0, v => v
  | n + 1, v => PyVal.dict [(PyKey.str "k", nestChain n v)]

/-- The truncation image: `n` wrappers ending in the empty dict. -/
def emptyChainVal : Nat → PyVal
  | 0 => PyVal.dict []
  | n + 1 => PyVal.dict [(PyKey.str "k", emptyChainVal n)]

/-- Once the recursion depth exceeds `max_depth = 5`, the sanitizer
returns the empty dict for any value whatsoever. -/
lemma sanitize_depth_exceeded (v : PyVal) : _sanitize_metadata v 5 6 = [] := by
  cases v <;> rfl

/-- A chain wrapped around a dict is itself a dict. -/
lemma nestChain_dict (m : Nat) (es : List (PyKey × PyVal)) :
    ∃ es2, nestChain m (PyVal.dict es) = PyVal.dict es2 := by
  cases m with
  | zero => exact ⟨es, rfl⟩
  | succ n => exact ⟨[(PyKey.str "k", nestChain n (PyVal.dict es))], rfl⟩

/-- One step of the sanitizer loop, with the value transform named. -/
lemma sanitizeItems_cons (k : PyKey) (v : PyVal) (rest : List (PyKey × PyVal))
    (maxd cd : Nat) (acc : List (String × PyVal)) :
    sanitizeItems ((k, v) :: rest) maxd cd acc
      = sanitizeItems rest maxd cd (insertKV acc (keyStr k) (sanitizeValue v maxd cd)) := by
  cases v <;> rfl

/-- Sanitizing a single-entry dict below the depth cutoff. -/
lemma sanitize_single (k : PyKey) (X : PyVal) (cd : Nat) (hcd : ¬ cd > 5) :
    _sanitize_metadata (PyVal.dict [(k, X)]) 5 cd
      = [(keyStr k, sanitizeValue X 5 cd)] := by
  have h1 : _sanitize_metadata (PyVal.dict [(k, X)]) 5 cd
      = if cd > 5 then [] else sanitizeItems [(k, X)] 5 cd [] := rfl
  rw [h1, if_neg hcd, sanitizeItems_cons]
  rfl

/-- Sanitizing `j + 1` wrapper layers of an arbitrarily deeper chain
at depth `cd = 5 - j` yields the truncation image of height `j`. -/
lemma sanitize_chain_aux (j : Nat) : ∀ (cd : Nat), cd + j = 5 →
    ∀ (m : Nat) (es : List (PyKey × PyVal)),
      _sanitize_metadata (nestChain (m + (j + 1)) (PyVal.dict es)) 5 cd
        = [("k", emptyChainVal j)] := by
  induction j with
  | zero =>
    intro cd hcd m es
    have h5 : cd = 5 := by omega
    subst h5
    show _sanitize_metadata
        (PyVal.dict [(PyKey.str "k", nestChain m (PyVal.dict es))]) 5 5
      = [("k", emptyChainVal 0)]
    rw [sanitize_single _ _ 5 (by omega)]
    obtain ⟨es2, he2⟩ := nestChain_dict m es
    rw [he2]
    have h2 : sanitizeValue (PyVal.dict es2) 5 5
        = PyVal.dict ((_sanitize_metadata (PyVal.dict es2) 5 6).map
            (fun kv => (PyKey.str kv.1, kv.2))) := rfl
    rw [h2, sanitize_depth_exceeded]
    rfl
  | succ j' ih =>
    intro cd hcd m es
    show _sanitize_metadata
        (PyVal.dict [(PyKey.str "k", nestChain (m + (j' + 1)) (PyVal.dict es))])
        5 cd = [("k", emptyChainVal (j' + 1))]
    rw [sanitize_single _ _ cd (by omega)]
    obtain ⟨es2, he2⟩ := nestChain_dict (m + (j' + 1)) es
    have ih' := ih (cd + 1) (by omega) m es
    rw [he2] at ih'
    rw [he2]
    have h2 : sanitizeValue (PyVal.dict es2) 5 cd
        = PyVal.dict ((_sanitize_metadata (PyVal.dict es2) 5 (cd + 1)).map
            (fun kv => (PyKey.str kv.1, kv.2))) := rfl
    rw [h2, ih']
    rfl

/-- Keys produced by one Python dict assignment. -/
lemma insertKV_keys (acc : List (String × PyVal)) (k : String) (v : PyVal)
    (key : String) (h : key ∈ (insertKV acc k v).map Prod.fst) :
    key ∈ acc.map Prod.fst ∨ key = k := by
  unfold insertKV at h
  by_cases hany : acc.any (fun kv => kv.1 == k) = true
  · rw [if_pos hany, List.map_map] at h
    obtain ⟨kv, hkv, heq⟩ := List.mem_map.1 h
    by_cases hk : (kv.1 == k) = true
    · right
      simp only [Function.comp, hk, if_true] at heq
      exact heq.symm
    · left
      simp only [Function.comp, hk, if_false] at heq
      exact heq ▸ List.mem_map_of_mem Prod.fst hkv
  · rw [if_neg hany, List.map_append] at h
    rcases List.mem_append.1 h with h | h
    · exact Or.inl h
    · right
      simpa using h

/-- Every key of the sanitizer loop output comes from the accumulator
or is the string coercion of an input key. -/
lemma sanitizeItems_keys (items : List (PyKey × PyVal)) :
    ∀ (maxd cd : Nat) (acc : List (String × PyVal)) (key : String),
      key ∈ (sanitizeItems items maxd cd acc).map Prod.fst →
      key ∈ acc.map Prod.fst ∨ ∃ k0 ∈ items, key = keyStr k0.1 := by
  induction items with
  | nil =>
    intro maxd cd acc key h
    left
    simpa [sanitizeItems] using h
  | cons a rest ih =>
    intro maxd cd acc key h
    obtain ⟨k, v⟩ := a
    rw [sanitizeItems_cons] at h
    rcases ih maxd cd (insertKV acc (keyStr k) (sanitizeValue v maxd cd)) key h
        with h1 | h1
    · rcases insertKV_keys _ _ _ _ h1 with h2 | h2
      · exact Or.inl h2
      · exact Or.inr ⟨(k, v), List.mem_cons_self _ _, h2⟩
    · obtain ⟨k0, hk0, hkey⟩ := h1
      exact Or.inr ⟨k0, List.mem_cons_of_mem _ hk0, hkey⟩

/-- C4: `_sanitize_metadata` at its default `max_depth = 5` — total by
construction (the Lean embedding is a plain terminating function, the
model-level form of "returns normally without raising": the depth
check cuts the recursion off before it can grow without bound):
(1) a mapping buried under 6 or more dict layers (depth beyond 5) is
replaced by the empty mapping, for chains of arbitrary extra depth
`m`; (2)-(3) list and tuple values become their string representation;
(4)-(8) str, int, float, bool and None values pass through unchanged;
(9) every key of the output is the string coercion `keyStr` of some
input key. -/
theorem sanitize_metadata_spec :
    (∀ (m : Nat) (es : List (PyKey × PyVal)),
      sanitize_metadata (nestChain (m + 6) (PyVal.dict es)) = [("k", emptyChainVal 5)]) ∧
    (∀ (k : PyKey) (xs : List PyVal),
      sanitize_metadata (PyVal.dict [(k, PyVal.list xs)])
        = [(keyStr k, PyVal.str (pyStr (PyVal.list xs)))]) ∧
    (∀ (k : PyKey) (xs : List PyVal),
      sanitize_metadata (PyVal.dict [(k, PyVal.tuple xs)])
        = [(keyStr k, PyVal.str (pyStr (PyVal.tuple xs)))]) ∧
    (∀ (k : PyKey) (s : String),
      sanitize_metadata (PyVal.dict [(k, PyVal.str s)]) = [(keyStr k, PyVal.str s)]) ∧
    (∀ (k : PyKey) (n : Int),
      sanitize_metadata (PyVal.dict [(k, PyVal.int n)]) = [(keyStr k, PyVal.int n)]) ∧
    (∀ (k : PyKey) (q : ℚ),
      sanitize_metadata (PyVal.dict [(k, PyVal.float q)]) = [(keyStr k, PyVal.float q)]) ∧
    (∀ (k : PyKey) (b : Bool),
      sanitize_metadata (PyVal.dict [(k, PyVal.bool b)]) = [(keyStr k, PyVal.bool b)]) ∧
    (∀ k : PyKey,
      sanitize_metadata (PyVal.dict [(k, PyVal.none)]) = [(keyStr k, PyVal.none)]) ∧
    (∀ (entries : List (PyKey × PyVal)) (key : String),
      key ∈ (sanitize_metadata (PyVal.dict entries)).map Prod.fst →
      ∃ k0 ∈ entries, key = keyStr k0.1) := by
  refine ⟨?_, ?_, ?_, ?_, ?_, ?_, ?_, ?_, ?_⟩
  · intro m es
    exact sanitize_chain_aux 5 0 rfl m es
  · intro k xs
    rw [show sanitize_metadata (PyVal.dict [(k, PyVal.list xs)])
        = _sanitize_metadata (PyVal.dict [(k, PyVal.list xs)]) 5 0 from rfl,
      sanitize_single _ _ 0 (by omega)]
    rfl
  · intro k xs
    rw [show sanitize_metadata (PyVal.dict [(k, PyVal.tuple xs)])
        = _sanitize_metadata (PyVal.dict [(k, PyVal.tuple xs)]) 5 0 from rfl,
      sanitize_single _ _ 0 (by omega)]
    rfl
  · intro k s
    rw [show sanitize_metadata (PyVal.dict [(k, PyVal.str s)])
        = _sanitize_metadata (PyVal.dict [(k, PyVal.str s)]) 5 0 from rfl,
      sanitize_single _ _ 0 (by omega)]
    rfl
  · intro k n
    rw [show sanitize_metadata (PyVal.dict [(k, PyVal.int n)])
        = _sanitize_metadata (PyVal.dict [(k, PyVal.int n)]) 5 0 from rfl,
      sanitize_single _ _ 0 (by omega)]
    rfl
  · intro k q
    rw [show sanitize_metadata (PyVal.dict [(k, PyVal.float q)])
        = _sanitize_metadata (PyVal.dict [(k, PyVal.float q)]) 5 0 from rfl,
      sanitize_single _ _ 0 (by omega)]
    rfl
  · intro k b
    rw [show sanitize_metadata (PyVal.dict [(k, PyVal.bool b)])
        = _sanitize_metadata (PyVal.dict [(k, PyVal.bool b)]) 5 0 from rfl,
      sanitize_single _ _ 0 (by omega)]
    rfl
  · intro k
    rw [show sanitize_metadata (PyVal.dict [(k, PyVal.none)])
        = _sanitize_metadata (PyVal.dict [(k, PyVal.none)]) 5 0 from rfl,
      sanitize_single _ _ 0 (by omega)]
    rfl
  · intro entries key h
    have h' := sanitizeItems_keys entries 5 0 [] key
      (by simpa [sanitize_metadata, _sanitize_metadata] using h)
    rcases h' with h' | h'
    · simp at h'
    · exact h'

/-- Witness for C4: a 6-deep chain truncates concretely; a list value
is stringified; a non-string key is coerced; and the key of the
sanitized output is traced back to the input key. -/
theorem sanitize_metadata_spec_witness :
    sanitize_metadata (nestChain (0 + 6) (PyVal.dict [(PyKey.str "deep", PyVal.int 1)]))
      = [("k", emptyChainVal 5)] ∧
    sanitize_metadata (PyVal.dict
        [(PyKey.str "tags", PyVal.list [PyVal.str "a", PyVal.int 2])])
      = [("tags", PyVal.str (pyStr (PyVal.list [PyVal.str "a", PyVal.int 2])))] ∧
    sanitize_metadata (PyVal.dict [(PyKey.other "7", PyVal.bool true)])
      = [("7", PyVal.bool true)] ∧
    (∃ k0 ∈ [(PyKey.other "7", PyVal.bool true)], "7" = keyStr k0.1) :=
  ⟨sanitize_metadata_spec.1 0 [(PyKey.str "deep", PyVal.int 1)],
   sanitize_metadata_spec.2.1 (PyKey.str "tags") [PyVal.str "a", PyVal.int 2],
   sanitize_metadata_spec.2.2.2.2.2.2.1 (PyKey.other "7") true,
   sanitize_metadata_spec.2.2.2.2.2.2.2.2 [(PyKey.other "7", PyVal.bool true)] "7"
     (by decide)⟩

end Revenium
